import Mathlib

/-!
Shallow embedding of the challenge-response authentication core of the
psz-sketch repository.

Conventions of the embedding:
* JavaScript strings and byte buffers are both modelled as `List Nat`
  (character/byte codes); `[]` models an absent or empty field, matching the
  JS falsy checks `!fingerprint` etc. in the handlers.
* The platform SHA-256 digest (`crypto.subtle.digest`) and the ECDSA P-256
  sign/verify primitives (`crypto.subtle.sign/verify`) are external platform
  calls, not repository code; they are passed as function parameters.
* Times are `Nat` milliseconds, as produced by `Date.now()`.  The expiry
  comparison `now - challengeData.timestamp > challengeData.expiresIn` from
  src/pages/api/challenge.ts is performed on `Int` casts so that JavaScript's
  signed subtraction is modelled exactly.
* The server's in-memory stores (src/mod/serverStorage.ts, development
  fallback branch: plain `Map.get`/`set`/`delete` with no lazy eviction) are
  modelled as function maps `List Nat → Option _`.
-/

namespace PszSketch

/-- JS strings and binary buffers, as lists of character/byte codes. -/
abbrev Str := List Nat

/-! ## Base64 (Node `Buffer.toString('base64')` / browser `btoa`, and
`Buffer.from(_, 'base64')` as used in `base64ToArrayBuffer`).
`61` is the code of the padding character. -/

/-- Character code of the base64 digit for a 6-bit value, standard alphabet
`A-Z a-z 0-9 + /`. -/
def b64Code (n : Nat) : Nat :=
  if n < 26 then 65 + n
  else if n < 52 then 97 + (n - 26)
  else if n < 62 then 48 + (n - 52)
  else if n = 62 then 43
  else 47

/-- 6-bit value of a base64 digit character code (0 on anything else,
matching Node's forgiving decoder on the characters we never produce). -/
def b64Val (c : Nat) : Nat :=
  if 65 ≤ c ∧ c ≤ 90 then c - 65
  else if 97 ≤ c ∧ c ≤ 122 then 26 + (c - 97)
  else if 48 ≤ c ∧ c ≤ 57 then 52 + (c - 48)
  else if c = 43 then 62
  else if c = 47 then 63
  else 0

/-- Standard base64 encoding of a byte list, with `=` (code 61) padding. -/
def base64Encode : Str → Str
  | b1 :: b2 :: b3 :: rest =>
      b64Code ((b1 * 65536 + b2 * 256 + b3) / 262144) ::
      b64Code ((b1 * 65536 + b2 * 256 + b3) / 4096 % 64) ::
      b64Code ((b1 * 65536 + b2 * 256 + b3) / 64 % 64) ::
      b64Code ((b1 * 65536 + b2 * 256 + b3) % 64) ::
      base64Encode rest
  | [b1, b2] =>
      [b64Code ((b1 * 65536 + b2 * 256) / 262144),
       b64Code ((b1 * 65536 + b2 * 256) / 4096 % 64),
       b64Code ((b1 * 65536 + b2 * 256) / 64 % 64), 61]
  | [b1] =>
      [b64Code (b1 * 65536 / 262144), b64Code (b1 * 65536 / 4096 % 64), 61, 61]
  | [] => []

/-- Standard base64 decoding of a padded base64 string back to bytes. -/
def base64Decode : Str → Str
  | c1 :: c2 :: c3 :: c4 :: rest =>
      if c3 = 61 then
        [(b64Val c1 * 262144 + b64Val c2 * 4096) / 65536]
      else if c4 = 61 then
        [(b64Val c1 * 262144 + b64Val c2 * 4096 + b64Val c3 * 64) / 65536,
         (b64Val c1 * 262144 + b64Val c2 * 4096 + b64Val c3 * 64) / 256 % 256]
      else
        (b64Val c1 * 262144 + b64Val c2 * 4096 + b64Val c3 * 64 + b64Val c4) / 65536 ::
        (b64Val c1 * 262144 + b64Val c2 * 4096 + b64Val c3 * 64 + b64Val c4) / 256 % 256 ::
        (b64Val c1 * 262144 + b64Val c2 * 4096 + b64Val c3 * 64 + b64Val c4) % 256 ::
        base64Decode rest
  | _ => []

theorem b64Val_b64Code : ∀ n, n < 64 → b64Val (b64Code n) = n := by decide

theorem b64Code_ne_pad : ∀ n, n < 64 → b64Code n ≠ 61 := by decide

theorem base64_roundtrip :
    ∀ bs : Str, (∀ b ∈ bs, b < 256) → base64Decode (base64Encode bs) = bs
  | [], _ => rfl
  | [b1], h => by
      have hb1 : b1 < 256 := h b1 (by simp)
      simp only [base64Encode, base64Decode]
      rw [if_pos trivial]
      rw [b64Val_b64Code _ (by omega), b64Val_b64Code _ (by omega)]
      simp only [List.cons.injEq, and_true]
      omega
  | [b1, b2], h => by
      have hb1 : b1 < 256 := h b1 (by simp)
      have hb2 : b2 < 256 := h b2 (by simp)
      simp only [base64Encode, base64Decode]
      rw [if_neg (b64Code_ne_pad _ (by omega)), if_pos trivial]
      rw [b64Val_b64Code _ (by omega), b64Val_b64Code _ (by omega),
        b64Val_b64Code _ (by omega)]
      simp only [List.cons.injEq, and_true]
      omega
  | b1 :: b2 :: b3 :: r1 :: rest, h => by
      have hb1 : b1 < 256 := h b1 (by simp)
      have hb2 : b2 < 256 := h b2 (by simp)
      have hb3 : b3 < 256 := h b3 (by simp)
      have ih : base64Decode (base64Encode (r1 :: rest)) = r1 :: rest :=
        base64_roundtrip (r1 :: rest) (fun b hb => h b (by simp [hb]))
      simp only [base64Encode, base64Decode]
      rw [if_neg (b64Code_ne_pad _ (by omega)), if_neg (b64Code_ne_pad _ (by omega))]
      rw [b64Val_b64Code _ (by omega), b64Val_b64Code _ (by omega),
        b64Val_b64Code _ (by omega), b64Val_b64Code _ (by omega)]
      have henc : base64Encode (r1 :: rest) = base64Encode (r1 :: rest) := rfl
      simp only [List.cons.injEq]
      refine ⟨by omega, by omega, by omega, ?_⟩
      exact ih
  | [b1, b2, b3], h => by
      have hb1 : b1 < 256 := h b1 (by simp)
      have hb2 : b2 < 256 := h b2 (by simp)
      have hb3 : b3 < 256 := h b3 (by simp)
      simp only [base64Encode, base64Decode]
      rw [if_neg (b64Code_ne_pad _ (by omega)), if_neg (b64Code_ne_pad _ (by omega))]
      rw [b64Val_b64Code _ (by omega), b64Val_b64Code _ (by omega),
        b64Val_b64Code _ (by omega), b64Val_b64Code _ (by omega)]
      simp only [List.cons.injEq, and_true]
      omega

theorem length_base64Encode :
    ∀ bs : Str, (base64Encode bs).length = 4 * ((bs.length + 2) / 3)
  | [] => rfl
  | [_] => by simp [base64Encode]
  | [_, _] => by simp [base64Encode]
  | _ :: _ :: _ :: rest => by
      simp only [base64Encode, List.length_cons, length_base64Encode rest]
      omega

/-! ## Fingerprint derivation (src/lib/keyManager.ts, src/lib/serverCrypto.ts)

`sha256 : Str → Str` stands for the platform digest `subtle.digest('SHA-256', _)`
(an external primitive; every real digest satisfies `(sha256 bs).length = 32`). -/

/-- From src/lib/keyManager.ts `getPublicKeyDetails`: export the public key to
SPKI bytes (here the input `publicKeySpki`), hash with SHA-256, take the first
30 bytes, base64-encode to get the fingerprint; also base64-encode the full
key.  Returns `(fingerprint, fullPublicKey)`. -/
def getPublicKeyDetails (sha256 : Str → Str) (publicKeySpki : Str) : Str × Str :=
  (base64Encode ((sha256 publicKeySpki).take 30), base64Encode publicKeySpki)

/-- From src/lib/serverCrypto.ts `verifyFingerprint`: decode the base64 public
key, hash with SHA-256, take the first 30 bytes, base64-encode, compare with
the submitted fingerprint. -/
def verifyFingerprint (sha256 : Str → Str) (fingerprint fullPublicKey : Str) : Bool :=
  base64Encode ((sha256 (base64Decode fullPublicKey)).take 30) == fingerprint

/-- C6: for every valid public key, derivation is deterministic — deriving
twice from the same key yields the same identifier — and the identifier
(base64 of the first 30 bytes of the SHA-256 hash of the SPKI encoding) is
exactly 40 characters long. -/
theorem derive_deterministic_length40 (sha256 : Str → Str)
    (hsha : ∀ bs, (sha256 bs).length = 32) (pub pub2 : Str) (hpp : pub2 = pub) :
    (getPublicKeyDetails sha256 pub2).1 = (getPublicKeyDetails sha256 pub).1 ∧
      ((getPublicKeyDetails sha256 pub).1).length = 40 := by
  constructor
  · rw [hpp]
  · have h1 : ((sha256 pub).take 30).length = 30 := by
      simp [hsha]
    simp only [getPublicKeyDetails]
    rw [length_base64Encode, h1]

theorem derive_deterministic_length40_witness :
    (getPublicKeyDetails (fun _ => List.replicate 32 0) [1, 2, 3]).1 =
      (getPublicKeyDetails (fun _ => List.replicate 32 0) [1, 2, 3]).1 ∧
      ((getPublicKeyDetails (fun _ => List.replicate 32 0) [1, 2, 3]).1).length = 40 :=
  derive_deterministic_length40 (fun _ => List.replicate 32 0)
    (fun _ => by simp) [1, 2, 3] [1, 2, 3] rfl

/-- C7: for every identifier string and base64-encoded public key, the
server-side `verifyFingerprint` returns `true` exactly when the identifier
equals the client-side derivation `getPublicKeyDetails` of that key: the
server's SHA-256 / truncate-to-30-bytes / base64 computation agrees with the
client's. -/
theorem verifyFingerprint_iff_clientDerive (sha256 : Str → Str)
    (fingerprint pk : Str) (h : ∀ b ∈ pk, b < 256) :
    verifyFingerprint sha256 fingerprint (base64Encode pk) = true ↔
      fingerprint = (getPublicKeyDetails sha256 pk).1 := by
  unfold verifyFingerprint getPublicKeyDetails
  rw [base64_roundtrip pk h, beq_iff_eq]
  exact eq_comm

theorem verifyFingerprint_iff_clientDerive_witness :
    verifyFingerprint (fun _ => List.replicate 32 0) (List.replicate 40 65)
        (base64Encode [1, 2, 3]) = true ↔
      List.replicate 40 65 =
        (getPublicKeyDetails (fun _ => List.replicate 32 0) [1, 2, 3]).1 :=
  verifyFingerprint_iff_clientDerive (fun _ => List.replicate 32 0)
    (List.replicate 40 65) [1, 2, 3] (by decide)

/-! ## Server state (src/mod/serverStorage.ts, development in-memory branch)
and JWT issuance (src/lib/serverCrypto.ts `generateJWT` / `verifyJWT`). -/

/-- `User` record from src/mod/collections.ts (`UserDocument`). -/
structure User where
  fingerprint : Str
  publicKey : Str
  createdAt : Str
deriving DecidableEq

/-- `ChallengeData` from src/mod/collections.ts (`ChallengeDocument`):
`timestamp` is `Date.now()` milliseconds, `expiresIn` a TTL in milliseconds. -/
structure ChallengeData where
  fingerprint : Str
  challenge : Str
  timestamp : Nat
  expiresIn : Nat
deriving DecidableEq

/-- The two mutable server stores of src/mod/serverStorage.ts (`users`,
`challenges`), keyed by fingerprint. -/
structure ServerState where
  users : Str → Option User
  challenges : Str → Option ChallengeData

/-- A JWT as produced by `jwt.sign(payload, JWT_SECRET)`: the payload together
with the secret it was signed with (signature modelled by secret equality). -/
structure Jwt where
  secret : Str
  sub : Str
  iat : Nat
  exp : Nat
deriving DecidableEq

/-- From src/lib/serverCrypto.ts `generateJWT`: payload
`{sub := fingerprint, iat := ⌊now/1000⌋, exp := ⌊now/1000⌋ + 3600}`,
signed with the server secret.  `now` is `Date.now()` in milliseconds. -/
def generateJWT (secret : Str) (fingerprint : Str) (now : Nat) : Jwt :=
  { secret := secret, sub := fingerprint, iat := now / 1000, exp := now / 1000 + 3600 }

/-- From src/lib/serverCrypto.ts `verifyJWT`: `jwt.verify` checks the
signature (here: the secret matches) and that the token is not expired
(`⌊now/1000⌋ < exp`), returning the payload, else null. -/
def verifyJWT (secret : Str) (token : Jwt) (now : Nat) : Option Str :=
  if token.secret = secret ∧ now / 1000 < token.exp then some token.sub else none

/-- Result of `POST /api/challenge` (src/pages/api/challenge.ts). -/
inductive ChallengeResult where
  | missingFields
  | fingerprintMismatch
  | issued (challenge : Str)
deriving DecidableEq

/-- HTTP status the /api/challenge handler attaches to each result. -/
def challengeStatus : ChallengeResult → Nat
  | .missingFields => 400
  | .fingerprintMismatch => 400
  | .issued _ => 200

/-- Result of `POST /api/authenticate` (src/pages/api/challenge.ts). -/
inductive AuthResult where
  | missingFields
  | userNotFound
  | noChallenge
  | challengeExpired
  | invalidSignature
  | success (jwt : Jwt)
deriving DecidableEq

/-- HTTP status the /api/authenticate handler attaches to each result. -/
def authStatus : AuthResult → Nat
  | .missingFields => 400
  | .userNotFound => 401
  | .noChallenge => 401
  | .challengeExpired => 401
  | .invalidSignature => 401
  | .success _ => 200

/-- The `POST /api/challenge` handler (src/pages/api/challenge.ts).
`nonce` is the base64 of the `randomBytes(32)` the handler draws, `now` is
`Date.now()`, `nowIso` the `new Date().toISOString()` stored on registration.
Checks the fields, verifies the fingerprint against the public key,
auto-registers an unseen user, then stores a challenge with
`expiresIn = 120000` ms, overwriting any prior entry for the fingerprint. -/
def challengePost (sha256 : Str → Str) (s : ServerState)
    (fingerprint fullPublicKey nonce : Str) (now : Nat) (nowIso : Str) :
    ChallengeResult × ServerState :=
  if fingerprint = [] ∨ fullPublicKey = [] then
    (.missingFields, s)
  else if ¬ verifyFingerprint sha256 fingerprint fullPublicKey then
    (.fingerprintMismatch, s)
  else
    let s1 : ServerState :=
      match s.users fingerprint with
      | some _ => s
      | none =>
          { s with users := fun k =>
              if k = fingerprint then
                some { fingerprint := fingerprint, publicKey := fullPublicKey,
                       createdAt := nowIso }
              else s.users k }
    (.issued nonce,
     { s1 with challenges := fun k =>
         if k = fingerprint then
           some { fingerprint := fingerprint, challenge := nonce,
                  timestamp := now, expiresIn := 120000 }
         else s1.challenges k })

/-- The `POST /api/authenticate` handler (src/pages/api/challenge.ts).
`verifySig` stands for src/lib/serverCrypto.ts `verifySignature`
(publicKey, challenge, signature ↦ bool; it never throws).  Field check,
user lookup, challenge lookup, expiry check `now - timestamp > expiresIn`
(on `Int`, as JS subtraction is signed) with deletion on expiry, then
deletion of the challenge *before* signature verification, then verification
and JWT issuance. -/
def authenticatePost (verifySig : Str → Str → Str → Bool) (secret : Str)
    (s : ServerState) (fingerprint signature : Str) (now : Nat) :
    AuthResult × ServerState :=
  if fingerprint = [] ∨ signature = [] then
    (.missingFields, s)
  else
    match s.users fingerprint with
    | none => (.userNotFound, s)
    | some user =>
      match s.challenges fingerprint with
      | none => (.noChallenge, s)
      | some cd =>
        if (now : Int) - (cd.timestamp : Int) > (cd.expiresIn : Int) then
          (.challengeExpired,
           { s with challenges := fun k =>
               if k = fingerprint then none else s.challenges k })
        else
          let s1 : ServerState :=
            { s with challenges := fun k =>
                if k = fingerprint then none else s.challenges k }
          if verifySig user.publicKey cd.challenge signature then
            (.success (generateJWT secret fingerprint now), s1)
          else
            (.invalidSignature, s1)

/-- `true` on the results of a completed signature-verification attempt
(step 6 was reached): success or `InvalidSignature`. -/
def completedVerification : AuthResult → Bool
  | .success _ => true
  | .invalidSignature => true
  | _ => false

/-- Shape of a run of /api/authenticate that completed signature
verification: the fields were present, the user existed, the users store is
untouched, and the challenge for the fingerprint has been deleted. -/
theorem authPost_completed_shape (verifySig : Str → Str → Str → Bool)
    (secret : Str) (s : ServerState) (fp sig : Str) (now : Nat)
    (h : completedVerification
      (authenticatePost verifySig secret s fp sig now).1 = true) :
    fp ≠ [] ∧ (∃ u, s.users fp = some u) ∧
    (authenticatePost verifySig secret s fp sig now).2.users = s.users ∧
    (authenticatePost verifySig secret s fp sig now).2.challenges fp = none := by
  by_cases hm : fp = [] ∨ sig = []
  · simp [authenticatePost, hm, completedVerification] at h
  · cases hu : s.users fp with
    | none => simp [authenticatePost, hm, hu, completedVerification] at h
    | some user =>
      cases hc : s.challenges fp with
      | none => simp [authenticatePost, hm, hu, hc, completedVerification] at h
      | some cd =>
        by_cases hexp : (now : Int) - (cd.timestamp : Int) > (cd.expiresIn : Int)
        · simp [authenticatePost, hm, hu, hc, hexp, completedVerification] at h
        · refine ⟨fun hfp => hm (Or.inl hfp), ⟨user, rfl⟩, ?_, ?_⟩
          · by_cases hv : verifySig user.publicKey cd.challenge sig <;>
              simp [authenticatePost, hm, hu, hc, hexp, hv]
          · by_cases hv : verifySig user.publicKey cd.challenge sig <;>
              simp [authenticatePost, hm, hu, hc, hexp, hv]

/-- C1: the /authenticate handler deletes the stored challenge before
signature verification, so after any completed verification attempt (success
or invalid signature) the stored challenge is gone, and a second
authenticate for the same fingerprint (with any well-formed signature, any
verifier, at any time) fails with `noChallenge` — never two successes from
one nonce. -/
theorem challenge_single_use (verifySig verifySig2 : Str → Str → Str → Bool)
    (secret secret2 : Str) (s : ServerState)
    (fingerprint signature signature2 : Str) (now now2 : Nat)
    (h : completedVerification
      (authenticatePost verifySig secret s fingerprint signature now).1 = true)
    (h2 : signature2 ≠ []) :
    (authenticatePost verifySig secret s fingerprint signature now).2.challenges
        fingerprint = none ∧
    (authenticatePost verifySig2 secret2
        (authenticatePost verifySig secret s fingerprint signature now).2
        fingerprint signature2 now2).1 = .noChallenge ∧
    ∀ j, (authenticatePost verifySig2 secret2
        (authenticatePost verifySig secret s fingerprint signature now).2
        fingerprint signature2 now2).1 ≠ .success j := by
  obtain ⟨hfp, ⟨u, hu⟩, husers, hchal⟩ :=
    authPost_completed_shape verifySig secret s fingerprint signature now h
  generalize hg : (authenticatePost verifySig secret s fingerprint signature
      now).2 = s1 at husers hchal ⊢
  have hu1 : s1.users fingerprint = some u := by rw [husers]; exact hu
  have hsecond : (authenticatePost verifySig2 secret2 s1
      fingerprint signature2 now2).1 = .noChallenge := by
    simp [authenticatePost, hfp, h2, hu1, hchal]
  exact ⟨hchal, hsecond, fun j => by rw [hsecond]; simp⟩

/-- C2: a challenge issued by /api/challenge and never consumed fails with
`challengeExpired` once its 120 s TTL has elapsed (`now₂ - now₁ > 120000` ms),
and the stored challenge is deleted — for every signature verifier, so in
particular even when the submitted signature over the nonce is valid. -/
theorem expired_challenge_rejected (sha256 : Str → Str)
    (verifySig : Str → Str → Str → Bool) (secret : Str) (s : ServerState)
    (fingerprint fullPublicKey nonce signature : Str) (now1 now2 : Nat)
    (nowIso : Str)
    (hfp : fingerprint ≠ []) (hpk : fullPublicKey ≠ [])
    (hvf : verifyFingerprint sha256 fingerprint fullPublicKey = true)
    (hsig : signature ≠ [])
    (hexp : (now2 : Int) - (now1 : Int) > 120000) :
    (authenticatePost verifySig secret
        (challengePost sha256 s fingerprint fullPublicKey nonce now1 nowIso).2
        fingerprint signature now2).1 = .challengeExpired ∧
    (authenticatePost verifySig secret
        (challengePost sha256 s fingerprint fullPublicKey nonce now1 nowIso).2
        fingerprint signature now2).2.challenges fingerprint = none := by
  have hnm : ¬ (fingerprint = [] ∨ fullPublicKey = []) := by
    push_neg; exact ⟨hfp, hpk⟩
  have hchal2 : (challengePost sha256 s fingerprint fullPublicKey nonce now1
      nowIso).2.challenges fingerprint
      = some { fingerprint := fingerprint, challenge := nonce,
               timestamp := now1, expiresIn := 120000 } := by
    unfold challengePost
    rw [if_neg hnm, if_neg (by simp [hvf])]
    simp
  have husers2 : ∃ u, (challengePost sha256 s fingerprint fullPublicKey nonce
      now1 nowIso).2.users fingerprint = some u := by
    unfold challengePost
    rw [if_neg hnm, if_neg (by simp [hvf])]
    cases hu : s.users fingerprint with
    | some u => exact ⟨u, by simp [hu]⟩
    | none =>
        exact ⟨{ fingerprint := fingerprint, publicKey := fullPublicKey,
                 createdAt := nowIso }, by simp [hu]⟩
  obtain ⟨u, hu2⟩ := husers2
  constructor
  · simp [authenticatePost, hfp, hsig, hu2, hchal2, hexp]
  · simp [authenticatePost, hfp, hsig, hu2, hchal2, hexp]

/-- C3: if the submitted identifier differs from the fingerprint the server
derives from the submitted public key, /api/challenge fails with the
fingerprint-mismatch error (HTTP 400) and the state is returned unchanged —
no challenge and no registration record is created. -/
theorem challenge_identity_mismatch (sha256 : Str → Str) (s : ServerState)
    (fingerprint fullPublicKey nonce : Str) (now : Nat) (nowIso : Str)
    (hfp : fingerprint ≠ []) (hpk : fullPublicKey ≠ [])
    (hne : fingerprint
      ≠ base64Encode ((sha256 (base64Decode fullPublicKey)).take 30)) :
    challengePost sha256 s fingerprint fullPublicKey nonce now nowIso
        = (.fingerprintMismatch, s) ∧
    challengeStatus .fingerprintMismatch = 400 := by
  have hvf : verifyFingerprint sha256 fingerprint fullPublicKey = false := by
    unfold verifyFingerprint
    exact beq_eq_false_iff_ne.mpr (Ne.symm hne)
  refine ⟨?_, rfl⟩
  unfold challengePost
  rw [if_neg (by push_neg; exact ⟨hfp, hpk⟩), if_pos (by simp [hvf])]

/-- C5: the session-token issuer `generateJWT` produces a payload with `sub`
the given fingerprint, `iat` the issuance time in whole seconds
(`⌊now/1000⌋`), and `exp` exactly `iat + 3600` seconds. -/
theorem generateJWT_payload (secret fingerprint : Str) (now : Nat) :
    (generateJWT secret fingerprint now).sub = fingerprint ∧
    (generateJWT secret fingerprint now).iat = now / 1000 ∧
    (generateJWT secret fingerprint now).exp
      = (generateJWT secret fingerprint now).iat + 3600 :=
  ⟨rfl, rfl, rfl⟩

/-- C10: an /api/authenticate request whose body is missing the fingerprint
or the signature is rejected with the missing-fields error, whose status is
400 (not 401); the state is returned unchanged, and the result does not
depend on the stores at all — no user lookup and no challenge access. -/
theorem authenticate_missing_fields (verifySig : Str → Str → Str → Bool)
    (secret : Str) (s : ServerState) (fingerprint signature : Str) (now : Nat)
    (h : fingerprint = [] ∨ signature = []) :
    authenticatePost verifySig secret s fingerprint signature now
        = (.missingFields, s) ∧
    authStatus .missingFields = 400 ∧
    ∀ s' : ServerState,
      (authenticatePost verifySig secret s' fingerprint signature now).1
        = .missingFields := by
  refine ⟨?_, rfl, fun s' => ?_⟩
  · unfold authenticatePost
    rw [if_pos h]
  · unfold authenticatePost
    rw [if_pos h]

theorem challenge_single_use_witness :
    (authenticatePost (fun _ _ _ => true) [7]
        ⟨fun k => if k = [1] then some ⟨[1], [2], []⟩ else none,
          fun k => if k = [1] then some ⟨[1], [9], 0, 120000⟩ else none⟩
        [1] [3] 5).2.challenges [1] = none ∧
    (authenticatePost (fun _ _ _ => false) [8]
        (authenticatePost (fun _ _ _ => true) [7]
          ⟨fun k => if k = [1] then some ⟨[1], [2], []⟩ else none,
            fun k => if k = [1] then some ⟨[1], [9], 0, 120000⟩ else none⟩
          [1] [3] 5).2
        [1] [4] 6).1 = .noChallenge :=
  ⟨(challenge_single_use (fun _ _ _ => true) (fun _ _ _ => false) [7] [8]
      ⟨fun k => if k = [1] then some ⟨[1], [2], []⟩ else none,
        fun k => if k = [1] then some ⟨[1], [9], 0, 120000⟩ else none⟩
      [1] [3] [4] 5 6 (by decide) (by decide)).1,
   (challenge_single_use (fun _ _ _ => true) (fun _ _ _ => false) [7] [8]
      ⟨fun k => if k = [1] then some ⟨[1], [2], []⟩ else none,
        fun k => if k = [1] then some ⟨[1], [9], 0, 120000⟩ else none⟩
      [1] [3] [4] 5 6 (by decide) (by decide)).2.1⟩

theorem expired_challenge_rejected_witness :
    (authenticatePost (fun _ _ _ => true) [7]
        (challengePost (fun _ => List.replicate 32 0) ⟨fun _ => none, fun _ => none⟩
          (List.replicate 40 65) (base64Encode [1, 2, 3]) [9] 0 []).2
        (List.replicate 40 65) [3] 130000).1 = .challengeExpired ∧
    (authenticatePost (fun _ _ _ => true) [7]
        (challengePost (fun _ => List.replicate 32 0) ⟨fun _ => none, fun _ => none⟩
          (List.replicate 40 65) (base64Encode [1, 2, 3]) [9] 0 []).2
        (List.replicate 40 65) [3] 130000).2.challenges (List.replicate 40 65)
      = none :=
  expired_challenge_rejected (fun _ => List.replicate 32 0) (fun _ _ _ => true)
    [7] ⟨fun _ => none, fun _ => none⟩ (List.replicate 40 65)
    (base64Encode [1, 2, 3]) [9] [3] 0 130000 []
    (by decide) (by decide) (by decide) (by decide) (by decide)

theorem challenge_identity_mismatch_witness :
    challengePost (fun _ => List.replicate 32 0) ⟨fun _ => none, fun _ => none⟩
        [66] (base64Encode [1, 2, 3]) [9] 0 []
      = (.fingerprintMismatch, ⟨fun _ => none, fun _ => none⟩) ∧
    challengeStatus .fingerprintMismatch = 400 :=
  challenge_identity_mismatch (fun _ => List.replicate 32 0)
    ⟨fun _ => none, fun _ => none⟩ [66] (base64Encode [1, 2, 3]) [9] 0 []
    (by decide) (by decide) (by decide)

theorem authenticate_missing_fields_witness :
    authenticatePost (fun _ _ _ => true) [7] ⟨fun _ => none, fun _ => none⟩
        [] [1] 0
      = (.missingFields, ⟨fun _ => none, fun _ => none⟩) ∧
    authStatus .missingFields = 400 ∧
    (authenticatePost (fun _ _ _ => true) [7]
        ⟨fun k => if k = [1] then some ⟨[1], [2], []⟩ else none, fun _ => none⟩
        [] [1] 0).1 = .missingFields :=
  ⟨(authenticate_missing_fields (fun _ _ _ => true) [7]
      ⟨fun _ => none, fun _ => none⟩ [] [1] 0 (Or.inl rfl)).1,
   (authenticate_missing_fields (fun _ _ _ => true) [7]
      ⟨fun _ => none, fun _ => none⟩ [] [1] 0 (Or.inl rfl)).2.1,
   (authenticate_missing_fields (fun _ _ _ => true) [7]
      ⟨fun k => if k = [1] then some ⟨[1], [2], []⟩ else none, fun _ => none⟩
      [] [1] 0 (Or.inl rfl)).2.2
     ⟨fun k => if k = [1] then some ⟨[1], [2], []⟩ else none, fun _ => none⟩⟩

/-! ## Client key store (src/lib/keyManager.ts)

IndexedDB is modelled as an `Option KeyPair` slot (`user-key` of the
`psz-auth` database) together with a `readFails` flag standing for a failing
read transaction.  `CryptoKey` handles are opaque; a key pair is a pair of
handle ids.  The `Except` layer below is the promise-rejection channel. -/

/-- An opaque `CryptoKeyPair`: handles to a non-exportable P-256 pair. -/
structure KeyPair where
  publicKey : Nat
  privateKey : Nat
deriving DecidableEq

/-- The persistent store backing src/lib/keyManager.ts plus whether reads
currently fail (the store being inaccessible). -/
structure KeyStoreState where
  stored : Option KeyPair
  readFails : Bool
deriving DecidableEq

/-- The error the spec's KeyStore contract assigns to an inaccessible
persistent store. -/
inductive KeyStoreError where
  | storageError
deriving DecidableEq

/-- From src/lib/keyManager.ts `getStoredKey`: read the stored pair; the
`try/catch` turns a failing IndexedDB read into `null`, not an error. -/
def getStoredKey (st : KeyStoreState) : Option KeyPair :=
  if st.readFails then none else st.stored

/-- From src/lib/keyManager.ts `createAndStoreKey`: generate a fresh
non-extractable pair (`gen`, the platform `generateKey` result) and persist
it under the fixed slot. -/
def createAndStoreKey (st : KeyStoreState) (gen : KeyPair) :
    KeyPair × KeyStoreState :=
  (gen, { st with stored := some gen })

/-- From src/lib/keyManager.ts `getOrCreateKey`: return the stored pair if
`getStoredKey` yields one, else create and store a fresh one.  The `Except`
return type is the rejection channel on which the spec expects
`storageError` when the store is inaccessible. -/
def getOrCreateKey (st : KeyStoreState) (gen : KeyPair) :
    Except KeyStoreError (KeyPair × KeyStoreState) :=
  match getStoredKey st with
  | some k => .ok (k, st)
  | none => .ok (createAndStoreKey st gen)

/-- C4 counterexample: with a pair stored but the IndexedDB read failing,
`getOrCreateKey` does not fail with `storageError`: the `try/catch` inside
`getStoredKey` swallows the failure, and a freshly generated pair is stored
and returned instead. -/
theorem getOrCreateKey_read_failure_no_storageError :
    getOrCreateKey { stored := some ⟨1, 2⟩, readFails := true } ⟨3, 4⟩
        = .ok (⟨3, 4⟩, { stored := some ⟨3, 4⟩, readFails := true }) ∧
    getOrCreateKey { stored := some ⟨1, 2⟩, readFails := true } ⟨3, 4⟩
        ≠ .error .storageError := by
  refine ⟨rfl, ?_⟩
  intro h
  simp [getOrCreateKey, getStoredKey, createAndStoreKey] at h

/-- C4 amended: if the IndexedDB read fails, `getOrCreateKey` does not fail
with a `storageError` — `getStoredKey` swallows the failure into `none`, so
a fresh pair is generated, stored and returned; when the store is accessible
and a pair is stored, the call returns that same pair and leaves the store
unchanged, so every subsequent call returns it too. -/
theorem getOrCreateKey_behaviour (st st2 : KeyStoreState) (gen kp : KeyPair)
    (hr : st.readFails = true)
    (ha : st2.readFails = false) (hs : st2.stored = some kp) :
    getOrCreateKey st gen = .ok (gen, { st with stored := some gen }) ∧
    getOrCreateKey st2 gen = .ok (kp, st2) := by
  constructor
  · unfold getOrCreateKey getStoredKey createAndStoreKey
    rw [hr]
    rfl
  · unfold getOrCreateKey getStoredKey
    rw [ha]
    simp [hs]

theorem getOrCreateKey_behaviour_witness :
    getOrCreateKey ⟨some ⟨1, 2⟩, true⟩ ⟨3, 4⟩
        = .ok (⟨3, 4⟩, { stored := some ⟨3, 4⟩, readFails := true }) ∧
    getOrCreateKey ⟨some ⟨5, 6⟩, false⟩ ⟨3, 4⟩
        = .ok (⟨5, 6⟩, ⟨some ⟨5, 6⟩, false⟩) :=
  getOrCreateKey_behaviour ⟨some ⟨1, 2⟩, true⟩ ⟨some ⟨5, 6⟩, false⟩
    ⟨3, 4⟩ ⟨5, 6⟩ rfl rfl rfl

/-! ## verifySignature error handling (src/lib/serverCrypto.ts) -/

/-- Failure channel of the webcrypto calls inside `verifySignature`. -/
inductive CryptoError where
  | importError
  | verifyError
deriving DecidableEq

/-- The body of src/lib/serverCrypto.ts `verifySignature` without its
`try/catch`: import the SPKI public key (`subtle.importKey`, may reject on a
malformed key), then verify the ECDSA signature over the challenge bytes
(`subtle.verify`, may reject on malformed signature input).  The two
platform calls are the `importKey` / `rawVerify` parameters. -/
def verifySignatureBody (importKey : Str → Except CryptoError Nat)
    (rawVerify : Nat → Str → Str → Except CryptoError Bool)
    (fullPublicKey challenge signature : Str) : Except CryptoError Bool := do
  let pk ← importKey (base64Decode fullPublicKey)
  rawVerify pk challenge (base64Decode signature)

/-- src/lib/serverCrypto.ts `verifySignature`: the `try/catch` around the
body maps every error to `false`. -/
def verifySignature (importKey : Str → Except CryptoError Nat)
    (rawVerify : Nat → Str → Str → Except CryptoError Bool)
    (fullPublicKey challenge signature : Str) : Bool :=
  match verifySignatureBody importKey rawVerify fullPublicKey challenge
      signature with
  | .ok b => b
  | .error _ => false

/-- C9: `verifySignature` is a total boolean function of its three string
inputs — no error escapes it: whenever the underlying import/verify calls
fail (malformed public-key or signature input), it returns `false` rather
than raising. -/
theorem verifySignature_false_on_error
    (importKey : Str → Except CryptoError Nat)
    (rawVerify : Nat → Str → Str → Except CryptoError Bool)
    (fullPublicKey challenge signature : Str) (e : CryptoError)
    (h : verifySignatureBody importKey rawVerify fullPublicKey challenge
      signature = .error e) :
    verifySignature importKey rawVerify fullPublicKey challenge signature
      = false := by
  unfold verifySignature
  rw [h]

theorem verifySignature_false_on_error_witness :
    verifySignature (fun _ => .error .importError) (fun _ _ _ => .ok true)
      [1] [2] [3] = false :=
  verifySignature_false_on_error (fun _ => .error .importError)
    (fun _ _ _ => .ok true) [1] [2] [3] .importError rfl

/-! ## Client-side flow (the auth service `authenticate`, src/unnamed/part_000)

The signing capability of the non-exportable private key (`signData`
composed with the stored key) is the opaque `sign` parameter. -/

/-- The client authentication flow: get the key pair (its SPKI bytes are
`publicKeySpki`), derive fingerprint and full public key, request a
challenge, sign the returned nonce, submit fingerprint and signature, and
return the JWT on success (`none` models the thrown error on a non-ok
response). -/
def clientAuthenticate (sha256 : Str → Str)
    (verifySig : Str → Str → Str → Bool) (secret : Str) (sign : Str → Str)
    (publicKeySpki : Str) (s : ServerState) (nonce : Str) (now1 now2 : Nat)
    (nowIso : Str) : Option Jwt × ServerState :=
  match challengePost sha256 s (getPublicKeyDetails sha256 publicKeySpki).1
      (getPublicKeyDetails sha256 publicKeySpki).2 nonce now1 nowIso with
  | (.issued challenge, s1) =>
      match authenticatePost verifySig secret s1
          (getPublicKeyDetails sha256 publicKeySpki).1 (sign challenge) now2 with
      | (.success jwt, s2) => (some jwt, s2)
      | (_, s2) => (none, s2)
  | (_, s1) => (none, s1)

/-- C8: full round trip.  Generating a key pair (SPKI bytes plus signing
capability), deriving the identifier, requesting a challenge, signing the
nonce and authenticating — for a fresh identifier, a verifier that accepts
this key's signatures, and within the 120 s TTL — succeeds, and the subject
recovered from the returned token via `verifyJWT` equals the derived
identifier. -/
theorem round_trip_subject (sha256 : Str → Str)
    (verifySig : Str → Str → Str → Bool) (secret : Str) (sign : Str → Str)
    (spki : Str) (s : ServerState) (nonce : Str) (now1 now2 now3 : Nat)
    (nowIso : Str)
    (hspki : spki ≠ []) (hbytes : ∀ b ∈ spki, b < 256)
    (hsha : sha256 spki ≠ [])
    (hfresh : s.users (getPublicKeyDetails sha256 spki).1 = none)
    (hsign : verifySig (getPublicKeyDetails sha256 spki).2 nonce (sign nonce)
      = true)
    (hsignNe : sign nonce ≠ [])
    (httl : ¬ ((now2 : Int) - (now1 : Int) > 120000))
    (hnotExp : now3 / 1000 < now2 / 1000 + 3600) :
    (clientAuthenticate sha256 verifySig secret sign spki s nonce now1 now2
        nowIso).1
      = some (generateJWT secret (getPublicKeyDetails sha256 spki).1 now2) ∧
    verifyJWT secret
        (generateJWT secret (getPublicKeyDetails sha256 spki).1 now2) now3
      = some (getPublicKeyDetails sha256 spki).1 := by
  have hfpne : (getPublicKeyDetails sha256 spki).1 ≠ [] := by
    intro hh
    have hlen := congrArg List.length hh
    simp only [getPublicKeyDetails] at hlen
    rw [length_base64Encode, List.length_take, List.length_nil] at hlen
    have hpos : 0 < (sha256 spki).length := List.length_pos.mpr hsha
    omega
  have hpkne : (getPublicKeyDetails sha256 spki).2 ≠ [] := by
    intro hh
    have hlen := congrArg List.length hh
    simp only [getPublicKeyDetails] at hlen
    rw [length_base64Encode, List.length_nil] at hlen
    have hpos : 0 < spki.length := List.length_pos.mpr hspki
    omega
  have hvf : verifyFingerprint sha256 (getPublicKeyDetails sha256 spki).1
      (getPublicKeyDetails sha256 spki).2 = true := by
    simp only [getPublicKeyDetails]
    unfold verifyFingerprint
    rw [base64_roundtrip spki hbytes]
    exact beq_self_eq_true _
  constructor
  · simp [clientAuthenticate, challengePost, authenticatePost,
      hfpne, hpkne, hvf, hfresh, hsign, hsignNe, httl]
  · simp [verifyJWT, generateJWT, hnotExp]

theorem round_trip_subject_witness :
    (clientAuthenticate (fun _ => List.replicate 32 0)
        (fun _ ch sig => sig == 99 :: ch) [7] (fun m => 99 :: m) [1, 2, 3]
        ⟨fun _ => none, fun _ => none⟩ [9] 0 5 []).1
      = some (generateJWT [7]
          (getPublicKeyDetails (fun _ => List.replicate 32 0) [1, 2, 3]).1 5) ∧
    verifyJWT [7]
        (generateJWT [7]
          (getPublicKeyDetails (fun _ => List.replicate 32 0) [1, 2, 3]).1 5) 6
      = some (getPublicKeyDetails (fun _ => List.replicate 32 0) [1, 2, 3]).1 :=
  round_trip_subject (fun _ => List.replicate 32 0)
    (fun _ ch sig => sig == 99 :: ch) [7] (fun m => 99 :: m) [1, 2, 3]
    ⟨fun _ => none, fun _ => none⟩ [9] 0 5 6 []
    (by decide) (by decide) (by decide) rfl (by decide) (by decide)
    (by decide) (by decide)

end PszSketch
